import Mathlib

/-!
Shallow embedding of `src/leap/services/eip/eipbootstrapper.py` (class
`EIPBootstrapper`): a sequential bootstrap check runner with two steps
(`_download_config`, `_download_client_certificates`), a FIFO check queue
drained by a worker thread (`run`), and per-step result signals.

External collaborators (the `requests` session, `os.path` / `os.makedirs`,
file writes, and the `EIPConfig` / `ProviderConfig` on-disk model) are
modelled as an environment record of oracle functions; fallible calls
return `Except PyExc`.  Each step returns its outcome (a returned Bool or
an escaped exception), the updated object state, and a trace of observable
events (HTTP requests made, signal emissions, lock operations, idle
sleeps), so that ordering and no-network-call claims are statable.
-/

namespace EIPBootstrap

/-- Provider context (read-only descriptor): domain, API base URI, API
version and local CA certificate path, as consumed by the bootstrapper. -/
structure ProviderConfig where
  domain : String
  api_uri : String
  api_version : String
  ca_cert_path : String
  deriving DecidableEq

/-- The EIP service configuration object.  `EIPConfig()` constructs it with
no loaded data; a successful `load(data=...)` leaves the parsed data in it.
Its other behaviour (`get_client_cert_path`, `save`, `get_path_prefix`) is
collaborator code, supplied by the environment. -/
structure EIPConfig where
  loadedData : Option String
  deriving DecidableEq

/-- A freshly constructed `EIPConfig()`: nothing loaded. -/
def EIPConfig.new : EIPConfig := ⟨none⟩

/-- Python exceptions that the embedded code distinguishes: `AssertionError`
from `assert`, the `HTTPError` from `raise_for_status`, `OSError` with an
errno (from `os.makedirs`), and any other exception with a message. -/
inductive PyExc where
  | assertionError (msg : String)
  | httpError (status : Nat)
  | oserror (errnoVal : Nat) (msg : String)
  | exc (msg : String)
  deriving DecidableEq

/-- The string the step stores in the result dict: `"%s" % (e,)`. -/
def PyExc.message : PyExc → String
  | .assertionError m => m
  | .httpError s => "HTTP error " ++ toString s
  | .oserror _ m => m
  | .exc m => m

/-- errno.EEXIST. -/
def EEXIST : Nat := 17

/-- An HTTP response: status code and body content. -/
structure HttpResponse where
  status : Nat
  content : String
  deriving DecidableEq

/-- Whether the status code is 2xx. -/
def HttpResponse.ok2xx (r : HttpResponse) : Bool :=
  decide (200 ≤ r.status) && decide (r.status < 300)

/-- Modelled from the spec: the transport collaborator's `raise_for_status`
raises on a non-2xx response and is a no-op on a 2xx response (the
`requests` library itself is outside this repository). -/
def raise_for_status (r : HttpResponse) : Except PyExc Unit :=
  if r.ok2xx then .ok () else .error (.httpError r.status)

/-- Observable events of a run: HTTP GET requests (with the `verify=`
CA path), the two per-step signal emissions with their `{passed, error}`
payload, the client-certificate path computation (a collaborator call),
file writes, queue-lock acquire/release in the worker loop, and the idle
sleep. -/
inductive Ev where
  | getReq (url : String) (verify : String)
  | emitConfig (passed : Bool) (error : String)
  | emitCert (passed : Bool) (error : String)
  | certPath (cfg : EIPConfig) (path : String)
  | fileWrite (path : String)
  | lockAcq
  | lockRel
  | sleep
  deriving DecidableEq

/-- The two checks that `run_eip_setup_checks` enqueues. -/
inductive Check where
  | downloadConfig
  | downloadClientCertificates
  deriving DecidableEq

/-- The mutable state of an `EIPBootstrapper` instance that the embedded
methods read and write. -/
structure EIPBootstrapper where
  checks : List Check
  should_quit : Bool
  provider_config : Option ProviderConfig
  eip_config : Option EIPConfig
  download_if_needed : Bool
  deriving DecidableEq

/-- How a step's Python body ends: a `return b`, or an exception escaping
the method (nothing in the body caught it). -/
inductive StepOutcome where
  | ret (b : Bool)
  | raised (e : PyExc)
  deriving DecidableEq

/-- Result of running one step: its outcome, the updated object state, and
the event trace it produced. -/
structure StepResult where
  outcome : StepOutcome
  st : EIPBootstrapper
  trace : List Ev
  deriving DecidableEq

/-- The environment: behaviour of the external collaborators during one
run (filesystem queries, the HTTP session, `EIPConfig.load`/`save`,
`get_client_cert_path`, `os.makedirs`, `os.path.isdir`, file open/write,
`os.path.dirname`, and `get_path_prefix()`). -/
structure Env where
  pathExists : String → Bool
  httpGet : String → String → Except PyExc HttpResponse
  eipLoad : String → Except PyExc Unit
  eipSave : List String → Except PyExc Unit
  getClientCertPath : EIPConfig → ProviderConfig → Except PyExc String
  makedirs : String → Except PyExc Unit
  isdir : String → Bool
  openWrite : String → Except PyExc Unit
  dirname : String → String
  pathPfx : String

/-- `os.path.join` on the components used by the code. -/
def osJoin (parts : List String) : String := String.intercalate "/" parts

/-- The local path checked by the skip branch of `_download_config`:
`os.path.join(get_path_prefix(), "leap", "providers", domain,
"eip-service.json")`. -/
def configJsonPath (env : Env) (pc : ProviderConfig) : String :=
  osJoin [env.pathPfx, "leap", "providers", pc.domain, "eip-service.json"]

/-- The URL of the config fetch:
`"%s/%s/%s/%s" % (api_uri, api_version, "config", "eip-service.json")`. -/
def configUrl (pc : ProviderConfig) : String :=
  pc.api_uri ++ "/" ++ pc.api_version ++ "/config/eip-service.json"

/-- The URL of the certificate fetch:
`"%s/%s/%s/" % (api_uri, api_version, "cert")`. -/
def certUrl (pc : ProviderConfig) : String :=
  pc.api_uri ++ "/" ++ pc.api_version ++ "/cert/"

/-- The inner `try: os.makedirs(...) except OSError` of
`_download_client_certificates`: an `OSError` with errno `EEXIST` where the
path is a directory is swallowed; anything else re-raises. -/
def makedirsTolerant (env : Env) (d : String) : Except PyExc Unit :=
  match env.makedirs d with
  | .ok _ => .ok ()
  | .error (.oserror en m) =>
      if en = EEXIST && env.isdir d then .ok () else .error (.oserror en m)
  | .error e => .error e

/-- `EIPBootstrapper._download_config`.  Asserts a provider config, then
unconditionally sets `self._eip_config = EIPConfig()`.  If the
skip-if-present flag is set and the local eip-service.json exists, emits
`{passed: True}` and returns without touching the network.  Otherwise GETs
the config URL (verifying against the CA certificate path), raises for a
non-2xx status, loads the body into the config and saves it; any exception
in that `try` block is caught and becomes `{passed: False, error: str(e)}`.
The result dict is emitted on the `download_config` signal and the
`passed` value returned. -/
def download_config (env : Env) (st : EIPBootstrapper) : StepResult :=
  match st.provider_config with
  | none => ⟨.raised (.assertionError "We need a provider configuration!"), st, []⟩
  | some pc =>
    if st.download_if_needed && env.pathExists (configJsonPath env pc) then
      ⟨.ret true, { st with eip_config := some EIPConfig.new },
        [.emitConfig true ""]⟩
    else
      match env.httpGet (configUrl pc) pc.ca_cert_path with
      | .error e =>
          ⟨.ret false, { st with eip_config := some EIPConfig.new },
            [.getReq (configUrl pc) pc.ca_cert_path, .emitConfig false e.message]⟩
      | .ok res =>
        match raise_for_status res with
        | .error e =>
            ⟨.ret false, { st with eip_config := some EIPConfig.new },
              [.getReq (configUrl pc) pc.ca_cert_path, .emitConfig false e.message]⟩
        | .ok _ =>
          match env.eipLoad res.content with
          | .error e =>
              ⟨.ret false, { st with eip_config := some EIPConfig.new },
                [.getReq (configUrl pc) pc.ca_cert_path, .emitConfig false e.message]⟩
          | .ok _ =>
            match env.eipSave ["leap", "providers", pc.domain, "eip-service.json"] with
            | .error e =>
                ⟨.ret false, { st with eip_config := some (EIPConfig.mk (some res.content)) },
                  [.getReq (configUrl pc) pc.ca_cert_path, .emitConfig false e.message]⟩
            | .ok _ =>
                ⟨.ret true, { st with eip_config := some (EIPConfig.mk (some res.content)) },
                  [.getReq (configUrl pc) pc.ca_cert_path,
                   .fileWrite (configJsonPath env pc), .emitConfig true ""]⟩

/-- `EIPBootstrapper._download_client_certificates`.  Asserts a provider
config and an eip config.  Computes `client_cert_path` via
`get_client_cert_path` BEFORE the `try` block (an exception there escapes
the method).  If the skip-if-present flag is set and the file exists,
emits success and returns.  Otherwise, inside the `try` block: GETs the
cert URL (CA-verified), raises for non-2xx, creates the parent directory
tolerating an EEXIST directory, writes the certificate; any exception in
the `try` becomes `{passed: False, error: str(e)}`.  Emits the result
dict on `download_client_certificate` and returns `passed`. -/
def download_client_certificates (env : Env) (st : EIPBootstrapper) : StepResult :=
  match st.provider_config with
  | none => ⟨.raised (.assertionError "We need a provider configuration!"), st, []⟩
  | some pc =>
    match st.eip_config with
    | none => ⟨.raised (.assertionError "We need an eip configuration!"), st, []⟩
    | some ec =>
      match env.getClientCertPath ec pc with
      | .error e => ⟨.raised e, st, []⟩
      | .ok ccp =>
        if st.download_if_needed && env.pathExists ccp then
          ⟨.ret true, st, [.certPath ec ccp, .emitCert true ""]⟩
        else
          match env.httpGet (certUrl pc) pc.ca_cert_path with
          | .error e =>
              ⟨.ret false, st,
                [.certPath ec ccp, .getReq (certUrl pc) pc.ca_cert_path,
                 .emitCert false e.message]⟩
          | .ok res =>
            match raise_for_status res with
            | .error e =>
                ⟨.ret false, st,
                  [.certPath ec ccp, .getReq (certUrl pc) pc.ca_cert_path,
                   .emitCert false e.message]⟩
            | .ok _ =>
              match makedirsTolerant env (env.dirname ccp) with
              | .error e =>
                  ⟨.ret false, st,
                    [.certPath ec ccp, .getReq (certUrl pc) pc.ca_cert_path,
                     .emitCert false e.message]⟩
              | .ok _ =>
                match env.openWrite ccp with
                | .error e =>
                    ⟨.ret false, st,
                      [.certPath ec ccp, .getReq (certUrl pc) pc.ca_cert_path,
                       .emitCert false e.message]⟩
                | .ok _ =>
                    ⟨.ret true, st,
                      [.certPath ec ccp, .getReq (certUrl pc) pc.ca_cert_path,
                       .fileWrite ccp, .emitCert true ""]⟩

/-- `EIPBootstrapper.run_eip_setup_checks`: asserts a non-null provider
config (an `AssertionError` escapes and the queue is left untouched),
stores the provider config and the skip flag, and replaces the check queue
with the fixed two-step sequence. -/
def run_eip_setup_checks (pcArg : Option ProviderConfig) (dif : Bool)
    (st : EIPBootstrapper) : Except PyExc EIPBootstrapper :=
  match pcArg with
  | none => .error (.assertionError "We need a provider config!")
  | some pc =>
      .ok { st with
              provider_config := some pc,
              download_if_needed := dif,
              checks := [.downloadConfig, .downloadClientCertificates] }

/-- Dispatch a queued check to its method. -/
def execCheck (env : Env) (c : Check) (st : EIPBootstrapper) : StepResult :=
  match c with
  | .downloadConfig => download_config env st
  | .downloadClientCertificates => download_client_certificates env st

/-- The final state, full event trace, and (if the step raised) the
exception escaping the worker loop, of a bounded run of `run`. -/
structure RunResult where
  st : EIPBootstrapper
  trace : List Ev
  escaped : Option PyExc
  deriving DecidableEq

/-- One worker-loop iteration after the head check has executed (still
inside the `with QtCore.QMutexLocker(self._checks_lock)` block): if the
check raised, the lock is released by unwinding and the exception escapes
`run`; if it returned False the remaining checks are cleared,
`checkSomething` stays False and the iteration ends with the idle sleep;
if it returned True the loop continues directly. -/
def afterStep (sr : StepResult) (rec : EIPBootstrapper → RunResult) : RunResult :=
  match sr.outcome with
  | .raised e => ⟨sr.st, Ev.lockAcq :: sr.trace ++ [Ev.lockRel], some e⟩
  | .ret true =>
      ⟨(rec sr.st).st,
       Ev.lockAcq :: sr.trace ++ Ev.lockRel :: (rec sr.st).trace,
       (rec sr.st).escaped⟩
  | .ret false =>
      ⟨(rec { sr.st with checks := [] }).st,
       Ev.lockAcq :: sr.trace ++ Ev.lockRel :: Ev.sleep ::
         (rec { sr.st with checks := [] }).trace,
       (rec { sr.st with checks := [] }).escaped⟩

/-- `EIPBootstrapper.run`, fuel-bounded: each iteration checks the
cancellation flag (exit if set); then, under the checks lock, if the queue
is non-empty it pops the head check and runs it while still holding the
lock; a False return clears the queue; an iteration that ran no check
sleeps for the idle interval. -/
def runLoop (env : Env) : Nat → EIPBootstrapper → RunResult
  | 0, st => ⟨st, [], none⟩
  | Nat.succ fuel, st =>
    if st.should_quit then ⟨st, [], none⟩
    else
      match st.checks with
      | [] =>
          ⟨(runLoop env fuel st).st,
           Ev.sleep :: (runLoop env fuel st).trace,
           (runLoop env fuel st).escaped⟩
      | c :: rest =>
          afterStep (execCheck env c { st with checks := rest }) (runLoop env fuel)

/-- Whether an event is one of the two result-signal emissions. -/
def isEmit : Ev → Bool
  | .emitConfig _ _ => true
  | .emitCert _ _ => true
  | _ => false

/-- The subsequence of result-signal emissions in a trace. -/
def emitsOf (tr : List Ev) : List Ev := tr.filter isEmit

/-! ### Helper lemmas about the two steps -/

theorem download_config_st (env : Env) (st : EIPBootstrapper) :
    ∃ oc, (download_config env st).st = { st with eip_config := oc } := by
  unfold download_config
  split
  · exact ⟨st.eip_config, rfl⟩
  · split
    · exact ⟨_, rfl⟩
    · split
      · exact ⟨_, rfl⟩
      · split
        · exact ⟨_, rfl⟩
        · split
          · exact ⟨_, rfl⟩
          · split
            · exact ⟨_, rfl⟩
            · exact ⟨_, rfl⟩

theorem download_certs_st (env : Env) (st : EIPBootstrapper) :
    (download_client_certificates env st).st = st := by
  unfold download_client_certificates
  split
  · rfl
  · split
    · rfl
    · split
      · rfl
      · split
        · rfl
        · split
          · rfl
          · split
            · rfl
            · split
              · rfl
              · split
                · rfl
                · rfl

theorem download_config_trace_shape (env : Env) (st : EIPBootstrapper) (b : Bool) :
    (download_config env st).outcome = .ret b →
    ∃ pre m, (download_config env st).trace = pre ++ [Ev.emitConfig b m] ∧
      pre.all (fun ev => !isEmit ev) = true ∧ (b = true → m = "") := by
  unfold download_config
  split
  · intro h; exact absurd h (by simp)
  · rename_i pc heqpc
    split
    · intro h
      simp only [StepOutcome.ret.injEq] at h
      exact ⟨[], "", by simp [← h], rfl, fun _ => rfl⟩
    · split
      · rename_i e heq
        intro h
        simp only [StepOutcome.ret.injEq] at h
        exact ⟨[Ev.getReq (configUrl pc) pc.ca_cert_path], e.message,
          by simp [← h], rfl, by simp [← h]⟩
      · rename_i res heq
        split
        · rename_i e heq2
          intro h
          simp only [StepOutcome.ret.injEq] at h
          exact ⟨[Ev.getReq (configUrl pc) pc.ca_cert_path], e.message,
            by simp [← h], rfl, by simp [← h]⟩
        · split
          · rename_i e heq2
            intro h
            simp only [StepOutcome.ret.injEq] at h
            exact ⟨[Ev.getReq (configUrl pc) pc.ca_cert_path], e.message,
              by simp [← h], rfl, by simp [← h]⟩
          · split
            · rename_i e heq2
              intro h
              simp only [StepOutcome.ret.injEq] at h
              exact ⟨[Ev.getReq (configUrl pc) pc.ca_cert_path], e.message,
                by simp [← h], rfl, by simp [← h]⟩
            · intro h
              simp only [StepOutcome.ret.injEq] at h
              exact ⟨[Ev.getReq (configUrl pc) pc.ca_cert_path,
                      Ev.fileWrite (configJsonPath env pc)], "",
                by simp [← h], rfl, fun _ => rfl⟩

theorem download_certs_trace_shape (env : Env) (st : EIPBootstrapper) (b : Bool) :
    (download_client_certificates env st).outcome = .ret b →
    ∃ pre m, (download_client_certificates env st).trace = pre ++ [Ev.emitCert b m] ∧
      pre.all (fun ev => !isEmit ev) = true ∧ (b = true → m = "") := by
  unfold download_client_certificates
  split
  · intro h; exact absurd h (by simp)
  · rename_i pc heqpc
    split
    · intro h; exact absurd h (by simp)
    · rename_i ec heqec
      split
      · intro h; exact absurd h (by simp)
      · rename_i ccp heqccp
        split
        · intro h
          simp only [StepOutcome.ret.injEq] at h
          exact ⟨[Ev.certPath ec ccp], "", by simp [← h], rfl, fun _ => rfl⟩
        · split
          · rename_i e heq
            intro h
            simp only [StepOutcome.ret.injEq] at h
            exact ⟨[Ev.certPath ec ccp, Ev.getReq (certUrl pc) pc.ca_cert_path], e.message,
              by simp [← h], rfl, by simp [← h]⟩
          · rename_i res heq
            split
            · rename_i e heq2
              intro h
              simp only [StepOutcome.ret.injEq] at h
              exact ⟨[Ev.certPath ec ccp, Ev.getReq (certUrl pc) pc.ca_cert_path], e.message,
                by simp [← h], rfl, by simp [← h]⟩
            · split
              · rename_i e heq2
                intro h
                simp only [StepOutcome.ret.injEq] at h
                exact ⟨[Ev.certPath ec ccp, Ev.getReq (certUrl pc) pc.ca_cert_path], e.message,
                  by simp [← h], rfl, by simp [← h]⟩
              · split
                · rename_i e heq2
                  intro h
                  simp only [StepOutcome.ret.injEq] at h
                  exact ⟨[Ev.certPath ec ccp, Ev.getReq (certUrl pc) pc.ca_cert_path], e.message,
                    by simp [← h], rfl, by simp [← h]⟩
                · intro h
                  simp only [StepOutcome.ret.injEq] at h
                  exact ⟨[Ev.certPath ec ccp, Ev.getReq (certUrl pc) pc.ca_cert_path,
                          Ev.fileWrite ccp], "", by simp [← h], rfl, fun _ => rfl⟩

/-! ### Helper lemmas about the worker loop -/

theorem runLoop_idle (env : Env) (fuel : Nat) (st : EIPBootstrapper)
    (h : st.checks = []) :
    (runLoop env fuel st).st = st ∧ (runLoop env fuel st).escaped = none ∧
      ∀ ev ∈ (runLoop env fuel st).trace, ev = Ev.sleep := by
  induction fuel with
  | zero => exact ⟨rfl, rfl, by simp [runLoop]⟩
  | succ n ih =>
    unfold runLoop
    rcases hq : st.should_quit with _ | _
    · rw [h]
      simp only [hq, Bool.false_eq_true, if_false]
      refine ⟨ih.1, ih.2.1, ?_⟩
      intro ev hev
      rcases List.mem_cons.mp hev with h1 | h1
      · exact h1
      · exact ih.2.2 ev h1
    · simp [hq]

theorem runLoop_succ_step (env : Env) (fuel : Nat) (st : EIPBootstrapper)
    (c : Check) (rest : List Check)
    (hq : st.should_quit = false) (hc : st.checks = c :: rest) :
    runLoop env (Nat.succ fuel) st =
      afterStep (execCheck env c { st with checks := rest }) (runLoop env fuel) := by
  unfold runLoop
  rw [hq, hc]
  simp

theorem afterStep_ret_true (sr : StepResult) (rec : EIPBootstrapper → RunResult)
    (h : sr.outcome = .ret true) :
    afterStep sr rec =
      ⟨(rec sr.st).st,
       Ev.lockAcq :: sr.trace ++ Ev.lockRel :: (rec sr.st).trace,
       (rec sr.st).escaped⟩ := by
  unfold afterStep
  rw [h]

theorem afterStep_ret_false (sr : StepResult) (rec : EIPBootstrapper → RunResult)
    (h : sr.outcome = .ret false) :
    afterStep sr rec =
      ⟨(rec { sr.st with checks := [] }).st,
       Ev.lockAcq :: sr.trace ++ Ev.lockRel :: Ev.sleep ::
         (rec { sr.st with checks := [] }).trace,
       (rec { sr.st with checks := [] }).escaped⟩ := by
  unfold afterStep
  rw [h]

theorem lastOfAppend (l : List Ev) (a : Ev) : (l ++ [a]).getLast? = some a := by
  induction l with
  | nil => rfl
  | cons x l ih =>
      rw [List.cons_append, List.getLast?_cons]
      simp [ih]

theorem filter_isEmit_of_all {l : List Ev} (h : l.all (fun ev => !isEmit ev) = true) :
    l.filter isEmit = [] := by
  induction l with
  | nil => rfl
  | cons a l ih =>
      simp only [List.all_cons, Bool.and_eq_true, Bool.not_eq_true'] at h
      simp [List.filter_cons, h.1, ih (by simpa using h.2)]

theorem filter_isEmit_sleeps {l : List Ev} (h : ∀ ev ∈ l, ev = Ev.sleep) :
    l.filter isEmit = [] := by
  induction l with
  | nil => rfl
  | cons a l ih =>
      have ha := h a (List.mem_cons_self a l)
      subst ha
      simpa [List.filter_cons, isEmit]
        using ih (fun ev hev => h ev (List.mem_cons_of_mem _ hev))

theorem not_emitCert_of_all {l : List Ev} (h : l.all (fun ev => !isEmit ev) = true)
    (p : Bool) (e : String) : Ev.emitCert p e ∉ l := by
  intro hmem
  rw [List.all_eq_true] at h
  have := h _ hmem
  simp [isEmit] at this

/-! ### Concrete collaborators for witnesses and counterexamples -/

/-- A concrete provider context used by witnesses. -/
def pcW : ProviderConfig :=
  ⟨"bitmask.net", "https://api.bitmask.net:4430", "1", "/tmp/cacert.pem"⟩

/-- A concrete environment in which every collaborator call succeeds and
no target artifact exists locally yet. -/
def envAllOk : Env where
  pathExists := fun _ => false
  httpGet := fun _ _ => .ok ⟨200, "BODY"⟩
  eipLoad := fun _ => .ok ()
  eipSave := fun _ => .ok ()
  getClientCertPath := fun _ _ => .ok "pfx/leap/providers/bitmask.net/keys/client/openvpn.pem"
  makedirs := fun _ => .ok ()
  isdir := fun _ => true
  openWrite := fun _ => .ok ()
  dirname := fun _ => "pfx/leap/providers/bitmask.net/keys/client"
  pathPfx := "pfx"

/-- Like `envAllOk` but every HTTP GET raises a connection error. -/
def envFailGet : Env :=
  { envAllOk with httpGet := fun _ _ => .error (.exc "connection refused") }

/-- Like `envAllOk` but both target artifacts already exist on disk. -/
def envOnDisk : Env := { envAllOk with pathExists := fun _ => true }

/-- Like `envAllOk` but `get_client_cert_path` raises. -/
def envPathBoom : Env :=
  { envAllOk with getClientCertPath := fun _ _ => .error (.exc "path boom") }

/-- Like `envAllOk` but `os.makedirs` raises `OSError(EEXIST)` while the
directory indeed exists. -/
def envEexist : Env :=
  { envAllOk with makedirs := fun _ => .error (.oserror 17 "File exists") }

/-- Like `envAllOk` but the server answers 404 to every GET. -/
def env404 : Env := { envAllOk with httpGet := fun _ _ => .ok ⟨404, "Not Found"⟩ }

/-- Like `envAllOk` but `os.makedirs` raises a non-EEXIST `OSError`. -/
def envMkdirBoom : Env :=
  { envAllOk with makedirs := fun _ => .error (.oserror 13 "Permission denied") }

/-- Like `envAllOk` but opening the certificate file for writing raises. -/
def envWriteBoom : Env :=
  { envAllOk with openWrite := fun _ => .error (.exc "disk full") }

/-- A configured bootstrapper with the two checks enqueued. -/
def stTwo : EIPBootstrapper :=
  ⟨[.downloadConfig, .downloadClientCertificates], false, some pcW, none, false⟩

/-- A bootstrapper mid-run: provider and derived config set, queue empty. -/
def stOne : EIPBootstrapper := ⟨[], false, some pcW, some EIPConfig.new, false⟩

/-- A bootstrapper with a provider but no derived configuration. -/
def stNoEC : EIPBootstrapper := ⟨[], false, some pcW, none, false⟩

/-- An unconfigured bootstrapper: no provider context. -/
def stNoPC : EIPBootstrapper := ⟨[], false, none, none, false⟩

/-- A configured bootstrapper with the skip-if-present flag set. -/
def stSkip : EIPBootstrapper := ⟨[], false, some pcW, none, true⟩

/-! ### Shared branch lemmas -/

theorem download_config_skip (env : Env) (st : EIPBootstrapper) (pc : ProviderConfig)
    (hpc : st.provider_config = some pc)
    (hdif : st.download_if_needed = true)
    (hex : env.pathExists (configJsonPath env pc) = true) :
    download_config env st =
      ⟨.ret true, { st with eip_config := some EIPConfig.new },
       [.emitConfig true ""]⟩ := by
  unfold download_config
  rw [hpc]
  simp [hdif, hex]

theorem download_certs_head (env : Env) (st : EIPBootstrapper) (pc : ProviderConfig)
    (ec : EIPConfig) (ccp : String)
    (hpc : st.provider_config = some pc)
    (hec : st.eip_config = some ec)
    (hccp : env.getClientCertPath ec pc = .ok ccp) :
    (download_client_certificates env st).trace.head? = some (.certPath ec ccp) := by
  unfold download_client_certificates
  simp only [hpc, hec, hccp]
  split
  · rfl
  · split
    · rfl
    · split
      · rfl
      · split
        · rfl
        · split
          · rfl
          · rfl

/-! ### The claims -/

/-- Claim C2: whenever the skip-if-present flag is set and
`providers/<domain>/eip-service.json` already exists on disk, the config
fetch step emits `{passed: true}`, returns True immediately, and performs
no HTTP GET. -/
theorem C2_skip_if_present (env : Env) (st : EIPBootstrapper) (pc : ProviderConfig)
    (hpc : st.provider_config = some pc)
    (hdif : st.download_if_needed = true)
    (hex : env.pathExists (configJsonPath env pc) = true) :
    download_config env st =
      ⟨.ret true, { st with eip_config := some EIPConfig.new },
       [.emitConfig true ""]⟩ ∧
    ∀ u v, Ev.getReq u v ∉ (download_config env st).trace := by
  have hmain := download_config_skip env st pc hpc hdif hex
  refine ⟨hmain, ?_⟩
  rw [hmain]
  intro u v
  simp

/-- Witness for C2 at a concrete input: the flag is set, the file exists,
no GET event occurs even though the environment would refuse connections. -/
theorem C2_skip_if_present_witness :
    download_config envOnDisk stSkip =
      ⟨.ret true, { stSkip with eip_config := some EIPConfig.new },
       [.emitConfig true ""]⟩ ∧
    Ev.getReq (configUrl pcW) pcW.ca_cert_path ∉ (download_config envOnDisk stSkip).trace :=
  ⟨(C2_skip_if_present envOnDisk stSkip pcW rfl rfl rfl).1,
   (C2_skip_if_present envOnDisk stSkip pcW rfl rfl rfl).2 _ _⟩

/-- Claim C7: calling `run_eip_setup_checks` with a null provider config
raises an `AssertionError` and populates no queue; calling the certificate
fetch step without a provider config, or without a derived eip config,
raises an `AssertionError` before doing any work (empty trace, state
untouched). -/
theorem C7_preconditions_fail_fast (pcArg : Option ProviderConfig) (dif : Bool)
    (stc : EIPBootstrapper) (env : Env) (st2 : EIPBootstrapper) :
    (pcArg = none →
      run_eip_setup_checks pcArg dif stc =
        .error (.assertionError "We need a provider config!")) ∧
    (st2.provider_config = none →
      download_client_certificates env st2 =
        ⟨.raised (.assertionError "We need a provider configuration!"), st2, []⟩) ∧
    (st2.provider_config ≠ none → st2.eip_config = none →
      download_client_certificates env st2 =
        ⟨.raised (.assertionError "We need an eip configuration!"), st2, []⟩) := by
  refine ⟨?_, ?_, ?_⟩
  · intro h; subst h; rfl
  · intro h
    unfold download_client_certificates
    rw [h]
  · intro h1 h2
    unfold download_client_certificates
    rw [h2]
    rcases hpc : st2.provider_config with _ | pc
    · exact absurd hpc h1
    · rfl

/-- Witness for C7 at concrete inputs: a None provider argument, a state
with no provider context, and a state with a provider but no eip config. -/
theorem C7_preconditions_fail_fast_witness :
    run_eip_setup_checks none false stNoPC =
      .error (.assertionError "We need a provider config!") ∧
    download_client_certificates envAllOk stNoPC =
      ⟨.raised (.assertionError "We need a provider configuration!"), stNoPC, []⟩ ∧
    download_client_certificates envAllOk stNoEC =
      ⟨.raised (.assertionError "We need an eip configuration!"), stNoEC, []⟩ :=
  ⟨(C7_preconditions_fail_fast none false stNoPC envAllOk stNoPC).1 rfl,
   (C7_preconditions_fail_fast none false stNoPC envAllOk stNoPC).2.1 rfl,
   (C7_preconditions_fail_fast none false stNoPC envAllOk stNoEC).2.2 (by simp [stNoEC]) rfl⟩

/-- Claim C10: in the skip branch of the config fetch step, the derived
configuration left behind is a freshly constructed `EIPConfig` with
nothing loaded from disk, and the certificate step then computes the
credential path from that default-constructed configuration. -/
theorem C10_skip_leaves_fresh_config (env : Env) (st : EIPBootstrapper)
    (pc : ProviderConfig) (ccp : String)
    (hpc : st.provider_config = some pc)
    (hdif : st.download_if_needed = true)
    (hex : env.pathExists (configJsonPath env pc) = true)
    (hccp : env.getClientCertPath EIPConfig.new pc = .ok ccp) :
    (download_config env st).st.eip_config = some EIPConfig.new ∧
    EIPConfig.new.loadedData = none ∧
    (download_client_certificates env (download_config env st).st).trace.head? =
      some (.certPath EIPConfig.new ccp) := by
  have hmain := download_config_skip env st pc hpc hdif hex
  rw [hmain]
  refine ⟨rfl, rfl, ?_⟩
  exact download_certs_head env _ pc EIPConfig.new ccp (by rw [← hpc]) rfl hccp

/-- Witness for C10 at a concrete input: flag set, descriptor on disk; the
certificate step's first observable action is the path computation on the
fresh, empty configuration. -/
theorem C10_skip_leaves_fresh_config_witness :
    (download_config envOnDisk stSkip).st.eip_config = some EIPConfig.new ∧
    EIPConfig.new.loadedData = none ∧
    (download_client_certificates envOnDisk (download_config envOnDisk stSkip).st).trace.head? =
      some (.certPath EIPConfig.new "pfx/leap/providers/bitmask.net/keys/client/openvpn.pem") :=
  C10_skip_leaves_fresh_config envOnDisk stSkip pcW _ rfl rfl rfl rfl

/-- Claim C1: if the step popped from the head of the queue returns False,
the remaining queue is cleared and no later step executes or emits in that
run; in particular a failing config fetch means the certificate signal is
never emitted. -/
theorem C1_halt_on_failure (env : Env) (st : EIPBootstrapper) (fuel : Nat)
    (hq : st.should_quit = false)
    (hc : st.checks = [.downloadConfig, .downloadClientCertificates])
    (hf : (download_config env
        { st with checks := [.downloadClientCertificates] }).outcome = .ret false) :
    (runLoop env (fuel + 1) st).st.checks = [] ∧
    (runLoop env (fuel + 1) st).escaped = none ∧
    ∀ p e, Ev.emitCert p e ∉ (runLoop env (fuel + 1) st).trace := by
  obtain ⟨pre, m, htr, hpre, _⟩ := download_config_trace_shape env
    { st with checks := [Check.downloadClientCertificates] } false hf
  rw [show fuel + 1 = Nat.succ fuel from rfl,
      runLoop_succ_step env fuel st Check.downloadConfig [Check.downloadClientCertificates] hq hc]
  simp only [execCheck]
  rw [afterStep_ret_false _ _ hf]
  have hidle := runLoop_idle env fuel
    { (download_config env { st with checks := [Check.downloadClientCertificates] }).st with
      checks := [] } rfl
  refine ⟨by rw [hidle.1], hidle.2.1, ?_⟩
  intro p e
  rw [htr]
  intro hmem
  rcases List.mem_cons.mp hmem with h1 | h1
  · exact Ev.noConfusion h1
  rcases List.mem_append.mp h1 with h1 | h1
  · rcases List.mem_append.mp h1 with h2 | h2
    · exact not_emitCert_of_all hpre p e h2
    · rcases List.mem_cons.mp h2 with h3 | h3
      · exact Ev.noConfusion h3
      · simp at h3
  · rcases List.mem_cons.mp h1 with h2 | h2
    · exact Ev.noConfusion h2
    rcases List.mem_cons.mp h2 with h3 | h3
    · exact Ev.noConfusion h3
    · exact Ev.noConfusion (hidle.2.2 _ h3)

/-- Witness for C1 at a concrete input: the config GET raises a connection
error, the queue ends empty, the worker survives, and the concrete
certificate emission event is absent from the whole run's trace. -/
theorem C1_halt_on_failure_witness :
    (runLoop envFailGet 1 stTwo).st.checks = [] ∧
    (runLoop envFailGet 1 stTwo).escaped = none ∧
    Ev.emitCert true "" ∉ (runLoop envFailGet 1 stTwo).trace :=
  ⟨(C1_halt_on_failure envFailGet stTwo 0 rfl rfl rfl).1,
   (C1_halt_on_failure envFailGet stTwo 0 rfl rfl rfl).2.1,
   (C1_halt_on_failure envFailGet stTwo 0 rfl rfl rfl).2.2 true ""⟩

/-- Claim C9 counterexample: at a concrete input the worker loop's trace
shows the popped step's events (its GET request and its signal emission)
strictly between the lock acquisition and the lock release: before the
first `lockRel` a step event has already happened, so the step is NOT
executed after the queue lock has been released. -/
theorem C9_counterexample :
    (runLoop envFailGet 1 stTwo).trace =
      [Ev.lockAcq, Ev.getReq (configUrl pcW) pcW.ca_cert_path,
       Ev.emitConfig false "connection refused", Ev.lockRel, Ev.sleep] ∧
    ((runLoop envFailGet 1 stTwo).trace.takeWhile (fun ev => !(ev == Ev.lockRel))).any
      (fun ev => ev == Ev.getReq (configUrl pcW) pcW.ca_cert_path) = true := by
  constructor
  · rfl
  · rfl

/-- Claim C9 as amended: in every worker-loop iteration that executes a
step, the step's whole event trace lies between the `lockAcq` and the
`lockRel` of the queue lock — the lock is held across the step's execution
and released only after the step has completed. -/
theorem C9_lock_held_across_step (env : Env) (st : EIPBootstrapper) (fuel : Nat)
    (c : Check) (rest : List Check) (b : Bool)
    (hq : st.should_quit = false) (hc : st.checks = c :: rest)
    (hb : (execCheck env c { st with checks := rest }).outcome = .ret b) :
    ∃ tl, (runLoop env (fuel + 1) st).trace =
      Ev.lockAcq :: (execCheck env c { st with checks := rest }).trace ++
        Ev.lockRel :: tl := by
  rw [show fuel + 1 = Nat.succ fuel from rfl, runLoop_succ_step env fuel st c rest hq hc]
  cases b
  · rw [afterStep_ret_false _ _ hb]
    exact ⟨_, rfl⟩
  · rw [afterStep_ret_true _ _ hb]
    exact ⟨_, rfl⟩

/-- Witness for the amended C9 at a concrete input. -/
theorem C9_lock_held_across_step_witness :
    ∃ tl, (runLoop envFailGet 1 stTwo).trace =
      Ev.lockAcq :: (execCheck envFailGet Check.downloadConfig
        { stTwo with checks := [Check.downloadClientCertificates] }).trace ++
        Ev.lockRel :: tl :=
  C9_lock_held_across_step envFailGet stTwo 0 Check.downloadConfig
    [Check.downloadClientCertificates] false rfl rfl rfl

/-- Claim C3 counterexample: at a concrete input where the path
computation (`get_client_cert_path`, called before the `try` block)
raises, the certificate step does NOT catch the exception and does NOT
emit `{passed: false}`: the exception escapes to the worker loop with an
empty trace. -/
theorem C3_counterexample :
    (download_client_certificates envPathBoom stOne).outcome = .raised (.exc "path boom") ∧
    (download_client_certificates envPathBoom stOne).trace = [] := by
  constructor
  · rfl
  · rfl

/-- Claim C3 as amended: once the path computation has succeeded, every
exception raised inside the certificate step's `try` block is caught at
the step boundary and the step returns rather than raises; a
directory-creation OSError with errno EEXIST where the path is a
directory is tolerated (the step still passes when the remaining work
succeeds); and each of the four in-`try` exception sources — the network
call, a non-2xx status from `raise_for_status`, a non-tolerated directory
creation failure, and the file write — is converted into the emission of
`{passed: false, error: <message of the exception>}`.  An exception in
the path computation itself, which runs before the `try` block, escapes
instead. -/
theorem C3_exceptions_caught_after_path (env : Env) (st : EIPBootstrapper)
    (pc : ProviderConfig) (ec : EIPConfig) (ccp : String)
    (hpc : st.provider_config = some pc)
    (hec : st.eip_config = some ec)
    (hccp : env.getClientCertPath ec pc = .ok ccp) :
    (∃ b, (download_client_certificates env st).outcome = .ret b) ∧
    (∀ r m, env.httpGet (certUrl pc) pc.ca_cert_path = .ok r → r.ok2xx = true →
      env.makedirs (env.dirname ccp) = .error (.oserror EEXIST m) →
      env.isdir (env.dirname ccp) = true →
      env.openWrite ccp = .ok () →
      (download_client_certificates env st).outcome = .ret true) ∧
    ((st.download_if_needed && env.pathExists ccp) = false →
      (∀ e, env.httpGet (certUrl pc) pc.ca_cert_path = .error e →
        download_client_certificates env st =
          ⟨.ret false, st,
           [.certPath ec ccp, .getReq (certUrl pc) pc.ca_cert_path,
            .emitCert false e.message]⟩) ∧
      (∀ r, env.httpGet (certUrl pc) pc.ca_cert_path = .ok r → r.ok2xx = false →
        download_client_certificates env st =
          ⟨.ret false, st,
           [.certPath ec ccp, .getReq (certUrl pc) pc.ca_cert_path,
            .emitCert false (PyExc.httpError r.status).message]⟩) ∧
      (∀ r e, env.httpGet (certUrl pc) pc.ca_cert_path = .ok r → r.ok2xx = true →
        makedirsTolerant env (env.dirname ccp) = .error e →
        download_client_certificates env st =
          ⟨.ret false, st,
           [.certPath ec ccp, .getReq (certUrl pc) pc.ca_cert_path,
            .emitCert false e.message]⟩) ∧
      (∀ r e, env.httpGet (certUrl pc) pc.ca_cert_path = .ok r → r.ok2xx = true →
        makedirsTolerant env (env.dirname ccp) = .ok () →
        env.openWrite ccp = .error e →
        download_client_certificates env st =
          ⟨.ret false, st,
           [.certPath ec ccp, .getReq (certUrl pc) pc.ca_cert_path,
            .emitCert false e.message]⟩)) := by
  refine ⟨?_, ?_, ?_⟩
  · unfold download_client_certificates
    simp only [hpc, hec, hccp]
    split
    · exact ⟨true, rfl⟩
    · split
      · exact ⟨false, rfl⟩
      · split
        · exact ⟨false, rfl⟩
        · split
          · exact ⟨false, rfl⟩
          · split
            · exact ⟨false, rfl⟩
            · exact ⟨true, rfl⟩
  · intro r m hr hok hmk hdir hw
    unfold download_client_certificates
    simp only [hpc, hec, hccp, hr]
    split
    · rfl
    · have hrs : raise_for_status r = .ok () := by
        unfold raise_for_status
        rw [hok]
        rfl
      have hmt : makedirsTolerant env (env.dirname ccp) = .ok () := by
        unfold makedirsTolerant
        rw [hmk]
        simp [hdir]
      simp only [hrs, hmt, hw]
  · intro hskip
    refine ⟨?_, ?_, ?_, ?_⟩
    · intro e he
      unfold download_client_certificates
      simp only [hpc, hec, hccp, he, hskip]
      rfl
    · intro r hr hok
      have hrs : raise_for_status r = .error (.httpError r.status) := by
        unfold raise_for_status
        rw [hok]
        rfl
      unfold download_client_certificates
      simp only [hpc, hec, hccp, hr, hrs, hskip]
      rfl
    · intro r e hr hok hmt
      have hrs : raise_for_status r = .ok () := by
        unfold raise_for_status
        rw [hok]
        rfl
      unfold download_client_certificates
      simp only [hpc, hec, hccp, hr, hrs, hmt, hskip]
      rfl
    · intro r e hr hok hmt hw
      have hrs : raise_for_status r = .ok () := by
        unfold raise_for_status
        rw [hok]
        rfl
      unfold download_client_certificates
      simp only [hpc, hec, hccp, hr, hrs, hmt, hw, hskip]
      rfl

/-- Witness for the amended C3 at concrete inputs: with `makedirs` raising
`OSError(EEXIST)` on an existing directory the step still passes; a
connection error, a 404 status, a non-EEXIST `makedirs` error, and a
failing file write are each converted into a `{passed: false}` emission
carrying that exception's message. -/
theorem C3_exceptions_caught_after_path_witness :
    (download_client_certificates envEexist stOne).outcome = .ret true ∧
    download_client_certificates envFailGet stOne =
      ⟨.ret false, stOne,
       [.certPath EIPConfig.new "pfx/leap/providers/bitmask.net/keys/client/openvpn.pem",
        .getReq (certUrl pcW) pcW.ca_cert_path,
        .emitCert false "connection refused"]⟩ ∧
    download_client_certificates env404 stOne =
      ⟨.ret false, stOne,
       [.certPath EIPConfig.new "pfx/leap/providers/bitmask.net/keys/client/openvpn.pem",
        .getReq (certUrl pcW) pcW.ca_cert_path,
        .emitCert false (PyExc.httpError 404).message]⟩ ∧
    download_client_certificates envMkdirBoom stOne =
      ⟨.ret false, stOne,
       [.certPath EIPConfig.new "pfx/leap/providers/bitmask.net/keys/client/openvpn.pem",
        .getReq (certUrl pcW) pcW.ca_cert_path,
        .emitCert false "Permission denied"]⟩ ∧
    download_client_certificates envWriteBoom stOne =
      ⟨.ret false, stOne,
       [.certPath EIPConfig.new "pfx/leap/providers/bitmask.net/keys/client/openvpn.pem",
        .getReq (certUrl pcW) pcW.ca_cert_path,
        .emitCert false "disk full"]⟩ :=
  ⟨(C3_exceptions_caught_after_path envEexist stOne pcW EIPConfig.new
      "pfx/leap/providers/bitmask.net/keys/client/openvpn.pem" rfl rfl rfl).2.1
      ⟨200, "BODY"⟩ "File exists" rfl rfl rfl rfl rfl,
   ((C3_exceptions_caught_after_path envFailGet stOne pcW EIPConfig.new
      "pfx/leap/providers/bitmask.net/keys/client/openvpn.pem" rfl rfl rfl).2.2 rfl).1
      (.exc "connection refused") rfl,
   ((C3_exceptions_caught_after_path env404 stOne pcW EIPConfig.new
      "pfx/leap/providers/bitmask.net/keys/client/openvpn.pem" rfl rfl rfl).2.2 rfl).2.1
      ⟨404, "Not Found"⟩ rfl rfl,
   ((C3_exceptions_caught_after_path envMkdirBoom stOne pcW EIPConfig.new
      "pfx/leap/providers/bitmask.net/keys/client/openvpn.pem" rfl rfl rfl).2.2 rfl).2.2.1
      ⟨200, "BODY"⟩ (.oserror 13 "Permission denied") rfl rfl rfl,
   ((C3_exceptions_caught_after_path envWriteBoom stOne pcW EIPConfig.new
      "pfx/leap/providers/bitmask.net/keys/client/openvpn.pem" rfl rfl rfl).2.2 rfl).2.2.2
      ⟨200, "BODY"⟩ (.exc "disk full") rfl rfl rfl rfl⟩

/-- Claim C4 counterexample: at a concrete input where the config GET
raises, the step reports `{passed: false}` but the runner's observable
state is NOT the same as before the step ran: the derived configuration
was `None` and is now a freshly constructed `EIPConfig`. -/
theorem C4_counterexample :
    stNoEC.eip_config = none ∧
    (download_config envFailGet stNoEC).outcome = .ret false ∧
    (download_config envFailGet stNoEC).st.eip_config = some EIPConfig.new ∧
    (download_config envFailGet stNoEC).st ≠ stNoEC := by
  refine ⟨rfl, rfl, rfl, ?_⟩
  intro h
  have : (download_config envFailGet stNoEC).st.eip_config = stNoEC.eip_config := by rw [h]
  simp [stNoEC] at this
  exact Option.noConfusion this

/-- Claim C4 as amended: when an exception inside the config fetch step's
`try` block is caught (the step returns False), the step's last event is
the `{passed: false, error: <message>}` emission and no file-write event
occurs; but the runner's state is not fully preserved — the derived
configuration has been unconditionally replaced, either by a freshly
constructed `EIPConfig` or (when only the save failed) by one holding the
fetched content. -/
theorem C4_failure_no_partial_file (env : Env) (st : EIPBootstrapper)
    (pc : ProviderConfig)
    (hpc : st.provider_config = some pc)
    (hf : (download_config env st).outcome = .ret false) :
    (∃ m, (download_config env st).trace.getLast? = some (.emitConfig false m)) ∧
    (∀ q, Ev.fileWrite q ∉ (download_config env st).trace) ∧
    ((download_config env st).st = { st with eip_config := some EIPConfig.new } ∨
     ∃ d, (download_config env st).st =
        { st with eip_config := some (EIPConfig.mk (some d)) }) := by
  obtain ⟨pre, m, htr, hpre, _⟩ := download_config_trace_shape env st false hf
  refine ⟨⟨m, by rw [htr]; exact lastOfAppend pre _⟩, ?_, ?_⟩
  · revert hf
    unfold download_config
    simp only [hpc]
    split
    · intro hcon; exact absurd hcon (by simp)
    · split
      · intro _ q; simp
      · split
        · intro _ q; simp
        · split
          · intro _ q; simp
          · split
            · intro _ q; simp
            · intro hcon; exact absurd hcon (by simp)
  · revert hf
    unfold download_config
    simp only [hpc]
    split
    · intro hcon; exact absurd hcon (by simp)
    · split
      · intro _; exact Or.inl rfl
      · split
        · intro _; exact Or.inl rfl
        · split
          · intro _; exact Or.inl rfl
          · split
            · intro _; exact Or.inr ⟨_, rfl⟩
            · intro hcon; exact absurd hcon (by simp)

/-- Witness for the amended C4 at a concrete input: connection refused;
the emission is last, no file write happens, the derived configuration is
the fresh one. -/
theorem C4_failure_no_partial_file_witness :
    (∃ m, (download_config envFailGet stNoEC).trace.getLast? =
        some (.emitConfig false m)) ∧
    (∀ q, Ev.fileWrite q ∉ (download_config envFailGet stNoEC).trace) ∧
    ((download_config envFailGet stNoEC).st =
        { stNoEC with eip_config := some EIPConfig.new } ∨
     ∃ d, (download_config envFailGet stNoEC).st =
        { stNoEC with eip_config := some (EIPConfig.mk (some d)) }) :=
  C4_failure_no_partial_file envFailGet stNoEC pcW rfl rfl

/-- Shared decomposition of a full two-step run in which the config step
passes and the certificate step returns: the run's trace is the first
step's trace under the lock, then the second step's trace under the lock,
then only idle sleeps; the queue ends empty and nothing escapes. -/
theorem runLoop_two (env : Env) (st : EIPBootstrapper) (fuel : Nat) (b2 : Bool)
    (hq : st.should_quit = false)
    (hc : st.checks = [Check.downloadConfig, Check.downloadClientCertificates])
    (h1 : (download_config env
        { st with checks := [Check.downloadClientCertificates] }).outcome = .ret true)
    (h2 : (download_client_certificates env
        { (download_config env
            { st with checks := [Check.downloadClientCertificates] }).st with
          checks := [] }).outcome = .ret b2) :
    ∃ tl, (runLoop env (fuel + 2) st).trace =
        Ev.lockAcq :: (download_config env
            { st with checks := [Check.downloadClientCertificates] }).trace ++
          Ev.lockRel :: Ev.lockAcq :: (download_client_certificates env
            { (download_config env
                { st with checks := [Check.downloadClientCertificates] }).st with
              checks := [] }).trace ++
          Ev.lockRel :: tl ∧
      (∀ ev ∈ tl, ev = Ev.sleep) ∧
      (runLoop env (fuel + 2) st).st.checks = [] ∧
      (runLoop env (fuel + 2) st).escaped = none := by
  obtain ⟨oc, hst1⟩ := download_config_st env
    { st with checks := [Check.downloadClientCertificates] }
  have hq2 : (download_config env
      { st with checks := [Check.downloadClientCertificates] }).st.should_quit = false := by
    rw [hst1]; exact hq
  have hc2 : (download_config env
      { st with checks := [Check.downloadClientCertificates] }).st.checks =
      [Check.downloadClientCertificates] := by
    rw [hst1]
  rw [show fuel + 2 = Nat.succ (fuel + 1) from rfl,
      runLoop_succ_step env (fuel + 1) st Check.downloadConfig
        [Check.downloadClientCertificates] hq hc]
  simp only [execCheck]
  rw [afterStep_ret_true _ _ h1]
  rw [show fuel + 1 = Nat.succ fuel from rfl,
      runLoop_succ_step env fuel _ Check.downloadClientCertificates [] hq2 hc2]
  simp only [execCheck]
  have hcert := download_certs_st env
    { (download_config env
        { st with checks := [Check.downloadClientCertificates] }).st with checks := [] }
  cases b2 with
  | false =>
      rw [afterStep_ret_false _ _ h2]
      have hidle := runLoop_idle env fuel
        { (download_client_certificates env
            { (download_config env
                { st with checks := [Check.downloadClientCertificates] }).st with
              checks := [] }).st with checks := [] } rfl
      refine ⟨Ev.sleep :: (runLoop env fuel
          { (download_client_certificates env
              { (download_config env
                  { st with checks := [Check.downloadClientCertificates] }).st with
                checks := [] }).st with checks := [] }).trace, ?_, ?_, ?_, hidle.2.1⟩
      · simp
      · intro ev hev
        rcases List.mem_cons.mp hev with h | h
        · exact h
        · exact hidle.2.2 ev h
      · rw [hidle.1]
  | true =>
      rw [afterStep_ret_true _ _ h2]
      rw [hcert]
      have hidle := runLoop_idle env fuel
        { (download_config env
            { st with checks := [Check.downloadClientCertificates] }).st with
          checks := [] } rfl
      refine ⟨(runLoop env fuel
          { (download_config env
              { st with checks := [Check.downloadClientCertificates] }).st with
            checks := [] }).trace, ?_, hidle.2.2, ?_, hidle.2.1⟩
      · simp
      · rw [hidle.1]

/-- Claim C5 counterexample: at a concrete input the config step passes,
the certificate step is then popped and executed, but its path
computation (run before the `try` block) raises, so this executed step
delivers no notification at all: the whole run emits only the config
notification and the exception escapes the worker loop — refuting
"exactly one notification per executed step". -/
theorem C5_counterexample :
    (runLoop envPathBoom 2 stTwo).escaped = some (.exc "path boom") ∧
    emitsOf (runLoop envPathBoom 2 stTwo).trace = [.emitConfig true ""] := by
  constructor
  · rfl
  · rfl

/-- Claim C5 as amended: notification delivery is exactly-once per
COMPLETED step — the certificate step's path computation can raise before
any work (see the C3 correction), and then no notification is delivered.
Every config or certificate step that returns delivers exactly one
notification carrying its `{passed, error}` result, as the last event of
the step's trace (after its work finishes); a run whose config step fails
emits exactly that one failure notification; and a run in which the
config step passes and the certificate step completes emits exactly the
two notifications in step order, the first delivered before the second
step begins. -/
theorem C5_notify_once_per_completed_step (env : Env) (st : EIPBootstrapper)
    (fuel : Nat) (b2 : Bool)
    (hq : st.should_quit = false)
    (hc : st.checks = [Check.downloadConfig, Check.downloadClientCertificates]) :
    (∀ b, (download_config env
        { st with checks := [Check.downloadClientCertificates] }).outcome = .ret b →
      ∃ m, emitsOf (download_config env
          { st with checks := [Check.downloadClientCertificates] }).trace =
            [.emitConfig b m] ∧
        (download_config env
          { st with checks := [Check.downloadClientCertificates] }).trace.getLast? =
            some (.emitConfig b m)) ∧
    (∀ b, (download_client_certificates env
        { (download_config env
            { st with checks := [Check.downloadClientCertificates] }).st with
          checks := [] }).outcome = .ret b →
      ∃ m, emitsOf (download_client_certificates env
          { (download_config env
              { st with checks := [Check.downloadClientCertificates] }).st with
            checks := [] }).trace = [.emitCert b m] ∧
        (download_client_certificates env
          { (download_config env
              { st with checks := [Check.downloadClientCertificates] }).st with
            checks := [] }).trace.getLast? = some (.emitCert b m)) ∧
    ((download_config env
        { st with checks := [Check.downloadClientCertificates] }).outcome = .ret false →
      ∃ m, emitsOf (runLoop env (fuel + 1) st).trace = [.emitConfig false m]) ∧
    ((download_config env
        { st with checks := [Check.downloadClientCertificates] }).outcome = .ret true →
     (download_client_certificates env
        { (download_config env
            { st with checks := [Check.downloadClientCertificates] }).st with
          checks := [] }).outcome = .ret b2 →
      ∃ m, emitsOf (runLoop env (fuel + 2) st).trace =
        [.emitConfig true "", .emitCert b2 m]) := by
  refine ⟨?_, ?_, ?_, ?_⟩
  · intro b hb
    obtain ⟨pre, m, htr, hpre, _⟩ := download_config_trace_shape env
      { st with checks := [Check.downloadClientCertificates] } b hb
    refine ⟨m, ?_, ?_⟩
    · rw [htr]
      simp only [emitsOf, List.filter_append]
      rw [filter_isEmit_of_all hpre]
      simp [isEmit]
    · rw [htr]
      exact lastOfAppend pre _
  · intro b hb
    obtain ⟨pre, m, htr, hpre, _⟩ := download_certs_trace_shape env
      { (download_config env
          { st with checks := [Check.downloadClientCertificates] }).st with
        checks := [] } b hb
    refine ⟨m, ?_, ?_⟩
    · rw [htr]
      simp only [emitsOf, List.filter_append]
      rw [filter_isEmit_of_all hpre]
      simp [isEmit]
    · rw [htr]
      exact lastOfAppend pre _
  · intro hf
    obtain ⟨pre, m, htr, hpre, _⟩ := download_config_trace_shape env
      { st with checks := [Check.downloadClientCertificates] } false hf
    rw [show fuel + 1 = Nat.succ fuel from rfl,
        runLoop_succ_step env fuel st Check.downloadConfig
          [Check.downloadClientCertificates] hq hc]
    simp only [execCheck]
    rw [afterStep_ret_false _ _ hf]
    have hidle := runLoop_idle env fuel
      { (download_config env
          { st with checks := [Check.downloadClientCertificates] }).st with
        checks := [] } rfl
    refine ⟨m, ?_⟩
    rw [htr]
    simp only [emitsOf, List.cons_append, List.filter_append, List.filter_cons]
    rw [filter_isEmit_of_all hpre, filter_isEmit_sleeps hidle.2.2]
    simp [isEmit]
  · intro h1 h2
    obtain ⟨pre1, m1, htr1, hpre1, hm1⟩ := download_config_trace_shape env
      { st with checks := [Check.downloadClientCertificates] } true h1
    obtain rfl : m1 = "" := hm1 rfl
    obtain ⟨pre2, m2, htr2, hpre2, _⟩ := download_certs_trace_shape env
      { (download_config env
          { st with checks := [Check.downloadClientCertificates] }).st with
        checks := [] } b2 h2
    obtain ⟨tl, htr, hsleep, _, _⟩ := runLoop_two env st fuel b2 hq hc h1 h2
    refine ⟨m2, ?_⟩
    rw [htr, htr1, htr2]
    simp only [emitsOf, List.cons_append, List.filter_append, List.filter_cons]
    rw [filter_isEmit_of_all hpre1, filter_isEmit_of_all hpre2,
        filter_isEmit_sleeps hsleep]
    simp [isEmit]

/-- Witness for the amended C5 at concrete inputs: with all collaborators
succeeding the config step emits once as its last event and the two-step
run emits the two notifications in order; with a refused connection the
failing-config run emits exactly the single failure notification. -/
theorem C5_notify_once_per_completed_step_witness :
    (∃ m, emitsOf (download_config envAllOk
        { stTwo with checks := [Check.downloadClientCertificates] }).trace =
          [.emitConfig true m] ∧
      (download_config envAllOk
        { stTwo with checks := [Check.downloadClientCertificates] }).trace.getLast? =
          some (.emitConfig true m)) ∧
    (∃ m, emitsOf (runLoop envFailGet (0 + 1) stTwo).trace = [.emitConfig false m]) ∧
    (∃ m, emitsOf (runLoop envAllOk (0 + 2) stTwo).trace =
        [.emitConfig true "", .emitCert true m]) :=
  ⟨(C5_notify_once_per_completed_step envAllOk stTwo 0 true rfl rfl).1 true rfl,
   (C5_notify_once_per_completed_step envFailGet stTwo 0 true rfl rfl).2.2.1 rfl,
   (C5_notify_once_per_completed_step envAllOk stTwo 0 true rfl rfl).2.2.2 rfl rfl⟩

/-- Claim C6: `run_eip_setup_checks` with a non-null provider config
replaces the queue by exactly the two-step sequence, and the worker loop
then executes the two steps strictly head-first: the whole trace of the
first step (its report included) precedes the whole trace of the second,
and after them only idle sleeps remain. -/
theorem C6_fifo_two_steps (pcArg : ProviderConfig) (dif : Bool)
    (stc : EIPBootstrapper) (env : Env) (st : EIPBootstrapper) (fuel : Nat) (b2 : Bool)
    (hq : st.should_quit = false)
    (hc : st.checks = [Check.downloadConfig, Check.downloadClientCertificates])
    (h1 : (download_config env
        { st with checks := [Check.downloadClientCertificates] }).outcome = .ret true)
    (h2 : (download_client_certificates env
        { (download_config env
            { st with checks := [Check.downloadClientCertificates] }).st with
          checks := [] }).outcome = .ret b2) :
    run_eip_setup_checks (some pcArg) dif stc =
      .ok { stc with
              provider_config := some pcArg,
              download_if_needed := dif,
              checks := [.downloadConfig, .downloadClientCertificates] } ∧
    ∃ tl, (runLoop env (fuel + 2) st).trace =
        Ev.lockAcq :: (download_config env
            { st with checks := [Check.downloadClientCertificates] }).trace ++
          Ev.lockRel :: Ev.lockAcq :: (download_client_certificates env
            { (download_config env
                { st with checks := [Check.downloadClientCertificates] }).st with
              checks := [] }).trace ++
          Ev.lockRel :: tl ∧
      (∀ ev ∈ tl, ev = Ev.sleep) := by
  refine ⟨rfl, ?_⟩
  obtain ⟨tl, htr, hsl, _, _⟩ := runLoop_two env st fuel b2 hq hc h1 h2
  exact ⟨tl, htr, hsl⟩

/-- Witness for C6 at a concrete input: configuring replaces the queue
with the two steps, and the all-success run decomposes into the two step
traces in enqueue order followed by sleeps. -/
theorem C6_fifo_two_steps_witness :
    run_eip_setup_checks (some pcW) false stNoPC =
      .ok { stNoPC with
              provider_config := some pcW,
              download_if_needed := false,
              checks := [.downloadConfig, .downloadClientCertificates] } ∧
    ∃ tl, (runLoop envAllOk (0 + 2) stTwo).trace =
        Ev.lockAcq :: (download_config envAllOk
            { stTwo with checks := [Check.downloadClientCertificates] }).trace ++
          Ev.lockRel :: Ev.lockAcq :: (download_client_certificates envAllOk
            { (download_config envAllOk
                { stTwo with checks := [Check.downloadClientCertificates] }).st with
              checks := [] }).trace ++
          Ev.lockRel :: tl ∧
      (∀ ev ∈ tl, ev = Ev.sleep) :=
  C6_fifo_two_steps pcW false stNoPC envAllOk stTwo 0 true rfl rfl rfl rfl

/-- Claim C8: the config fetch step GETs
`<apiURI>/<apiVersion>/config/eip-service.json` and the certificate fetch
step GETs `<apiURI>/<apiVersion>/cert/`, both with TLS verification set to
the provider's CA certificate path, and a non-2xx response makes
`raise_for_status` raise, which each step converts into a
`{passed: false}` report. -/
theorem C8_http_requests (env : Env) (st : EIPBootstrapper) (pc : ProviderConfig)
    (ec : EIPConfig) (ccp : String) (r1 r2 : HttpResponse)
    (hpc : st.provider_config = some pc)
    (hdif : st.download_if_needed = false)
    (h1 : env.httpGet (configUrl pc) pc.ca_cert_path = .ok r1)
    (hr1 : r1.ok2xx = false)
    (hec : st.eip_config = some ec)
    (hccp : env.getClientCertPath ec pc = .ok ccp)
    (h2 : env.httpGet (certUrl pc) pc.ca_cert_path = .ok r2)
    (hr2 : r2.ok2xx = false) :
    download_config env st =
      ⟨.ret false, { st with eip_config := some EIPConfig.new },
       [.getReq (configUrl pc) pc.ca_cert_path,
        .emitConfig false (PyExc.httpError r1.status).message]⟩ ∧
    download_client_certificates env st =
      ⟨.ret false, st,
       [.certPath ec ccp, .getReq (certUrl pc) pc.ca_cert_path,
        .emitCert false (PyExc.httpError r2.status).message]⟩ := by
  constructor
  · unfold download_config
    rw [hpc]
    simp [hdif, h1, raise_for_status, hr1]
  · unfold download_client_certificates
    simp only [hpc, hec, hccp]
    simp [hdif, h2, raise_for_status, hr2]

/-- Witness for C8 at a concrete input: the server answers 404 on both
URLs; both steps report failure with the HTTP error's message. -/
theorem C8_http_requests_witness :
    download_config env404 stOne =
      ⟨.ret false, { stOne with eip_config := some EIPConfig.new },
       [.getReq (configUrl pcW) pcW.ca_cert_path,
        .emitConfig false (PyExc.httpError 404).message]⟩ ∧
    download_client_certificates env404 stOne =
      ⟨.ret false, stOne,
       [.certPath EIPConfig.new "pfx/leap/providers/bitmask.net/keys/client/openvpn.pem",
        .getReq (certUrl pcW) pcW.ca_cert_path,
        .emitCert false (PyExc.httpError 404).message]⟩ :=
  C8_http_requests env404 stOne pcW EIPConfig.new
    "pfx/leap/providers/bitmask.net/keys/client/openvpn.pem"
    ⟨404, "Not Found"⟩ ⟨404, "Not Found"⟩ rfl rfl rfl rfl rfl rfl rfl rfl

end EIPBootstrap
